import Mathlib

/-!
# alertmanager-to-zulip: rendering and relay, embedded in Lean

The program (`main.go`) decodes an Alertmanager webhook payload, renders a topic
and a message with two `text/template` templates and posts them to Zulip.

The embedding follows the source:

* `KV`, `Pair`, `Pairs`, `Alert`, `Alerts`, `Data`, `Message` are the types of
  `github.com/prometheus/alertmanager/template` and `.../notify/webhook` that the
  templates and `formatAlerts` operate on, with the methods the default templates
  call (`SortedPairs`, `Names`, `Values`, `Remove`, `Firing`);
* `ToUpper`, `join`, `reReplaceAll` are the entries of `DefaultFuncs`;
* `Template`, `Execute` model a compiled `text/template` template: a name and an
  execution that writes into a buffer and may stop with an `ExecError`;
* `defaultTopicTpl`, `defaultMessageTpl` are the two default template sources of
  `main`, translated action by action;
* `formatAlerts` and `webhookHandler` are the two functions of `main.go`.

Strings are Lean strings.  Go orders strings bytewise; for valid UTF-8 this is the
order of the code point sequences, which is what `stringLess` compares.

Library code is embedded as far as the program runs it: `KV.SortedPairs` with its
special case for the alert name and the `<no value>` of a missing map key.  Package
`regexp`, the Unicode case table, the JSON decoder and the HTTP client are
parameters.
-/

namespace AlertmanagerToZulip

/-! ## Strings -/

/-- Lexicographic "less than" on sequences of code points. -/
def lessCodes : List Nat → List Nat → Bool
  | [], [] => false
  | [], _ :: _ => true
  | _ :: _, [] => false
  | a :: as, b :: bs => decide (a < b) || (decide (a = b) && lessCodes as bs)

/-- The code points of a string. -/
def codes (s : String) : List Nat := s.data.map Char.toNat

/-- Go's `a < b` on strings. -/
def stringLess (a b : String) : Bool := lessCodes (codes a) (codes b)

/-- The order `sort.Strings` sorts by: `a` may stand before `b` when `b < a` is false. -/
def stringLE (a b : String) : Prop := stringLess b a = false

instance stringLE_decidable : DecidableRel stringLE :=
  fun a b => inferInstanceAs (Decidable (stringLess b a = false))

/-- Embeds `sort.Strings`: the strings in ascending order. -/
def sortStrings (l : List String) : List String := l.insertionSort stringLE

/-- Embeds `strings.Join(elems, sep)`. -/
def Join : List String → String → String
  | [], _ => ""
  | [a], _ => a
  | a :: b :: rest, sep => a ++ sep ++ Join (b :: rest) sep

/-- ASCII upper-casing of one character, the fast path of `strings.ToUpper`. -/
def asciiUpper (c : Char) : Char :=
  if 97 ≤ c.toNat ∧ c.toNat ≤ 122 then Char.ofNat (c.toNat - 32) else c

/-- Embeds `strings.ToUpper`: an all-ASCII string is mapped bytewise (`'a'..'z'` lose 32),
any other string is mapped rune by rune with `unicode.ToUpper`, a table of the Go
standard library that is taken as the parameter `unicodeToUpper`. -/
def ToUpper (unicodeToUpper : Char → Char) (s : String) : String :=
  if s.data.all (fun c => decide (c.toNat < 128)) then
    String.mk (s.data.map asciiUpper)
  else
    String.mk (s.data.map unicodeToUpper)

/-- Embeds `DefaultFuncs["join"]`: `strings.Join` with the argument order inverted. -/
def join (sep : String) (s : List String) : String := Join s sep

/-! ## Label sets (`template.KV`, `template.Pairs`) -/

/-- Embeds `template.KV`, a Go `map[string]string`: the entries, with distinct keys, listed in
the order in which one `range` over the map visits them (Go leaves that order open). -/
structure KV where
  entries : List (String × String)
  nodup : (entries.map Prod.fst).Nodup

/-- Embeds `template.Pair`. -/
structure Pair where
  Name : String
  Value : String
deriving DecidableEq, Repr

/-- Embeds `template.Pairs`. -/
abbrev Pairs := List Pair

/-- Embeds `Pairs.Names`. -/
def Pairs.Names (ps : Pairs) : List String := ps.map Pair.Name

/-- Embeds `Pairs.Values`. -/
def Pairs.Values (ps : Pairs) : List String := ps.map Pair.Value

/-- The keys of the map, in iteration order. -/
def KV.keys (kv : KV) : List String := kv.entries.map Prod.fst

/-- Go's `len(kv)`. -/
def KV.len (kv : KV) : Nat := kv.entries.length

/-- Go's `v, ok := kv[k]`. -/
def KV.lookup (kv : KV) (k : String) : Option String := kv.entries.lookup k

/-- Go's `kv[k]`: the zero value `""` for a missing key. -/
def KV.index (kv : KV) (k : String) : String := (kv.lookup k).getD ""

/-- Embeds `model.AlertNameLabel`. -/
def AlertNameLabel : String := "alertname"

/-- One step of the key-collecting loop of `KV.SortedPairs`,
`if k == string(model.AlertNameLabel) { keys = append([]string{k}, keys...); sortStart = 1 }
else { keys = append(keys, k) }`: the alert name is put in front and excluded from
sorting, any other key is appended.  The pair is `(keys, sortStart)`. -/
def collectKey (acc : List String × Nat) (k : String) : List String × Nat :=
  if k = AlertNameLabel then (k :: acc.1, 1) else (acc.1 ++ [k], acc.2)

/-- The `keys` and `sortStart` of `KV.SortedPairs` after its first loop. -/
def collectKeys (kv : KV) : List String × Nat :=
  kv.keys.foldl collectKey ([], 0)

/-- The `keys` of `KV.SortedPairs` after `sort.Strings(keys[sortStart:])`. -/
def sortedKeys (kv : KV) : List String :=
  let c := collectKeys kv
  c.1.take c.2 ++ sortStrings (c.1.drop c.2)

/-- Embeds `KV.SortedPairs`: after the sort, `pairs = append(pairs, Pair{k, kv[k]})` for
every key in `keys`. -/
def KV.SortedPairs (kv : KV) : Pairs :=
  (sortedKeys kv).map (fun k => { Name := k, Value := kv.index k })

/-- Embeds `KV.Names`, `kv.SortedPairs().Names()`. -/
def KV.Names (kv : KV) : List String := kv.SortedPairs.Names

/-- Embeds `KV.Values`, `kv.SortedPairs().Values()`. -/
def KV.Values (kv : KV) : List String := kv.SortedPairs.Values

/-- Embeds `KV.Remove`: a copy of the map without the given keys,
`for k, v := range kv { if _, ok := keySet[k]; !ok { res[k] = v } }`. -/
def KV.Remove (kv : KV) (keys : List String) : KV where
  entries := kv.entries.filter (fun e => decide (e.1 ∉ keys))
  nodup := (List.Nodup.sublist (List.Sublist.map _ (List.filter_sublist _)) kv.nodup)

/-- The empty map (also a nil map). -/
def KV.empty : KV := ⟨[], List.nodup_nil⟩

/-! ## The alert group (`template.Data`, `webhook.Message`) -/

/-- Embeds `template.Alert`.  The two timestamps are kept as their JSON text. -/
structure Alert where
  Status : String
  Labels : KV
  Annotations : KV
  StartsAt : String
  EndsAt : String
  GeneratorURL : String
  Fingerprint : String

/-- Embeds `template.Alerts`. -/
abbrev Alerts := List Alert

/-- Embeds `model.AlertFiring`. -/
def AlertFiring : String := "firing"

/-- Embeds `Alerts.Firing`: the alerts whose own status is firing, in order,
`if a.Status == string(model.AlertFiring) { res = append(res, a) }`. -/
def Alerts.Firing (as : Alerts) : List Alert :=
  as.filter (fun a => decide (a.Status = AlertFiring))

/-- Embeds `template.Data`, the alert group handed to the templates. -/
structure Data where
  Receiver : String
  Status : String
  Alerts : Alerts
  GroupLabels : KV
  CommonLabels : KV
  CommonAnnotations : KV
  ExternalURL : String

/-- Embeds `webhook.Message`.  `Data` is an embedded pointer: it stays nil (`none`) when the
decoded JSON object has none of the fields of `template.Data`. -/
structure Message where
  Data : Option Data
  Version : String
  GroupKey : String
  TruncatedAlerts : Nat

/-! ## Templates (`text/template`) -/

/-- Embeds `template.ExecError`: the name of the failed template and the error text. -/
structure ExecError where
  Name : String
  Err : String
deriving DecidableEq, Repr

/-- Embeds `ExecError.Error`. -/
def ExecError.Error (e : ExecError) : String := e.Err

/-- A compiled template: its name and what executing it on the data does, namely the
text written to the output so far and, when execution stops early, the cause. -/
structure Template where
  name : String
  run : Option Data → String × Option String

/-- Embeds `Template.Execute(wr, data)`: the text written to `wr` and the returned error. -/
def Template.Execute (t : Template) (data : Option Data) : String × Option ExecError :=
  match t.run data with
  | (out, none) => (out, none)
  | (out, some cause) => (out, some { Name := t.name, Err := cause })

/-- The error text of `state.errorf` for a failure at a node: location, quoted template
name, node text, cause.  The two template names of the program need no escaping. -/
def errorf (location name context cause : String) : String :=
  "template: " ++ location ++ ": executing \"" ++ name ++ "\" at <" ++ context ++ ">: " ++ cause

/-- What printing the result of a field access on a map gives: the value, or
`<no value>` for a key the map does not have.  `main.go` builds its templates with
`template.New(...).Funcs(...)` of `text/template` and sets no `missingkey` option, so
the default, `missingkey=default`, applies. -/
def printIndex (v : Option String) : String := v.getD "<no value>"

/-- The default `templates.topic`, `{{ .GroupLabels.alertname }}`. -/
def defaultTopicRun : Option Data → String × Option String
  | none =>
    ("", some (errorf "topic:1:15" "topic" ".GroupLabels.alertname"
      "nil pointer evaluating **template.Data.GroupLabels"))
  | some d => (printIndex (d.GroupLabels.lookup "alertname"), none)

/-- The status tag of the default message: `{{ .Status | toUpper }}` and, inside
`{{ if eq .Status "firing" }}`, a colon and `{{ .Alerts.Firing | len }}`. -/
def statusTag (unicodeToUpper : Char → Char) (d : Data) : String :=
  ToUpper unicodeToUpper d.Status ++
    (if d.Status = "firing" then ":" ++ toString (Alerts.Firing d.Alerts).length else "")

/-- The body of `{{ with .CommonLabels.Remove .GroupLabels.Names }}`: for a non-empty
map, `{{ .Values | join " " }}`; for an empty one, nothing. -/
def withRemoved (d : Data) : String :=
  let removed := d.CommonLabels.Remove d.GroupLabels.Names
  if 0 < removed.len then join " " removed.Values else ""

/-- The end of the default message, `{{ if gt (len .CommonLabels) (len .GroupLabels) }}`
with the parentheses around the `with` block. -/
def parenthetical (d : Data) : String :=
  if d.CommonLabels.len > d.GroupLabels.len then "(" ++ withRemoved d ++ ")" else ""

/-- The default `templates.message` on an alert group, action by action. -/
def defaultMessage (unicodeToUpper : Char → Char) (d : Data) : String :=
  "[" ++ statusTag unicodeToUpper d ++ "] " ++
    join " " d.GroupLabels.SortedPairs.Values ++ " " ++ parenthetical d

/-- The default `templates.message`; on a nil `Data` the leading `[` is already written
when `.Status` fails. -/
def defaultMessageRun (unicodeToUpper : Char → Char) : Option Data → String × Option String
  | none =>
    ("[", some (errorf "message:1:4" "message" ".Status"
      "nil pointer evaluating **template.Data.Status"))
  | some d => (defaultMessage unicodeToUpper d, none)

/-- Embeds `topicTpl` with the default source. -/
def defaultTopicTpl : Template := { name := "topic", run := defaultTopicRun }

/-- Embeds `messageTpl` with the default source. -/
def defaultMessageTpl (unicodeToUpper : Char → Char) : Template :=
  { name := "message", run := defaultMessageRun unicodeToUpper }

/-- Embeds `formatAlerts`, with the two package-level templates as arguments. -/
def formatAlerts (topicTpl messageTpl : Template) (msg : Message) :
    String × String × Option ExecError :=
  match topicTpl.Execute msg.Data with
  | (_, some err) => ("", "", some err)
  | (topic, none) =>
    match messageTpl.Execute msg.Data with
    | (_, some err) => ("", "", some err)
    | (message, none) => (topic, message, none)

/-! ## `reReplaceAll` -/

/-- How a Go function call ends: it returns a value or it panics with a value. -/
inductive CallResult (α : Type) where
  | returned (v : α)
  | panicked (v : String)

/-- The part of package `regexp` that `reReplaceAll` uses, taken as given:
`Compile`, the method `ReplaceAllString(src, repl)` and the `quote` of the package. -/
structure RegexpLib where
  Regexp : Type
  Compile : String → Except String Regexp
  ReplaceAllString : Regexp → String → String → String
  quote : String → String

/-- Embeds `regexp.MustCompile`: like `Compile`, but a pattern that does not compile panics. -/
def MustCompile (lib : RegexpLib) (str : String) : CallResult lib.Regexp :=
  match lib.Compile str with
  | .ok re => .returned re
  | .error err => .panicked ("regexp: Compile(" ++ lib.quote str ++ "): " ++ err)

/-- Embeds `DefaultFuncs["reReplaceAll"]`. -/
def reReplaceAll (lib : RegexpLib) (pattern repl text : String) : CallResult String :=
  match MustCompile lib pattern with
  | .panicked v => .panicked v
  | .returned re => .returned (lib.ReplaceAllString re text repl)

/-! ## The `/webhook` handler -/

/-- The settings read through `viper`. -/
structure Config where
  url : String
  stream : String
  username : String
  password : String

/-- An outbound `http.Request`. -/
structure Request where
  Method : String
  URL : String
  Header : List (String × String)
  Body : String
deriving DecidableEq, Repr

/-- The `http.Response` of the chat API. -/
structure HttpResponse where
  StatusCode : Nat
  Body : String
deriving DecidableEq, Repr

/-- What the handler wrote to its `http.ResponseWriter`. -/
structure Response where
  status : Nat
  header : List (String × String)
  body : String
deriving DecidableEq, Repr

/-- The library calls of the handler, taken as given: the JSON decoding of the request
body into a `webhook.Message`, `url.QueryEscape`, `http.NewRequest`, the base64 encoding
of `SetBasicAuth`, and `client.Do`. -/
structure Env where
  Decode : String → Except String Message
  QueryEscape : String → String
  NewRequest : String → String → String → Except String Request
  base64 : String → String
  Do : Request → Except String HttpResponse

/-- A counter of the two counter vectors: `alertsErrors` by `type`, `alertsSent` by
`topic`. -/
inductive Counter where
  | errors (type : String)
  | sent (topic : String)
deriving DecidableEq, Repr

/-- The values of all counters. -/
structure Metrics where
  value : Counter → Nat

/-- Embeds `WithLabelValues(...).Inc()` on the counter `c`. -/
def Metrics.Inc (m : Metrics) (c : Counter) : Metrics :=
  { value := fun c' => if c' = c then m.value c' + 1 else m.value c' }

/-- The result of handling one request: the reply, the counters, the requests handed to
`client.Do` and the lines logged. -/
structure Outcome where
  response : Response
  metrics : Metrics
  posted : List Request
  log : List String

/-- Embeds `http.Error(w, error, code)`. -/
def httpError (error : String) (code : Nat) : Response :=
  { status := code,
    header := [("Content-Type", "text/plain; charset=utf-8"),
               ("X-Content-Type-Options", "nosniff")],
    body := error ++ "\n" }

/-- Embeds `data.Encode()` for the four values set by the handler: keys in sorted order. -/
def encodeForm (env : Env) (cfg : Config) (topic message : String) : String :=
  "content=" ++ env.QueryEscape message ++ "&to=" ++ env.QueryEscape cfg.stream ++
    "&topic=" ++ env.QueryEscape topic ++ "&type=" ++ env.QueryEscape "stream"

/-- Embeds `req.Header.Add("Content-Type", ...)` followed by `req.SetBasicAuth(...)`. -/
def withHeaders (env : Env) (cfg : Config) (req : Request) : Request :=
  { req with
    Header := req.Header ++
      [("Content-Type", "application/x-www-form-urlencoded"),
       ("Authorization", "Basic " ++ env.base64 (cfg.username ++ ":" ++ cfg.password))] }

/-- The handler registered for `/webhook`, on a request with the given body.  The log
holds the operands of `log.Println("Alert", topic)`, joined by a space. -/
def webhookHandler (env : Env) (cfg : Config) (topicTpl messageTpl : Template)
    (m : Metrics) (body : String) : Outcome :=
  match env.Decode body with
  | .error err =>
    { response := httpError err 400, metrics := m.Inc (.errors "invalid input"),
      posted := [], log := [] }
  | .ok msg =>
    match formatAlerts topicTpl messageTpl msg with
    | (_, _, some err) =>
      { response := httpError err.Error 500, metrics := m.Inc (.errors "template error"),
        posted := [], log := [] }
    | (topic, message, none) =>
      match env.NewRequest "POST" (cfg.url ++ "/api/v1/messages")
          (encodeForm env cfg topic message) with
      | .error err =>
        { response := httpError err 500,
          metrics := m.Inc (.errors "request creation error"),
          posted := [], log := ["Alert " ++ topic] }
      | .ok req =>
        match env.Do (withHeaders env cfg req) with
        | .error err =>
          { response := httpError err 500, metrics := m.Inc (.errors "request error"),
            posted := [withHeaders env cfg req], log := ["Alert " ++ topic] }
        | .ok _ =>
          { response := { status := 200, header := [("Content-Type", "text/plain")],
                          body := "ok" },
            metrics := m.Inc (.sent topic),
            posted := [withHeaders env cfg req], log := ["Alert " ++ topic] }


/-! ## Reading the claims, and sample alert groups -/

/-- Whether the string `s` begins with the string `p`. -/
def startsWith (s p : String) : Prop := p.data <+: s.data

instance startsWith_decidable (s p : String) : Decidable (startsWith s p) :=
  inferInstanceAs (Decidable (p.data <+: s.data))

/-- The values of a label set in ascending order of the label names, every name treated
alike: the order the specification words describe, stated apart from `KV.SortedPairs`. -/
def valuesInNameOrder (kv : KV) : List String := (sortStrings kv.keys).map kv.index

/-- An alert with the given status and nothing else. -/
def alertWithStatus (s : String) : Alert :=
  ⟨s, KV.empty, KV.empty, "", "", "", ""⟩

/-- The label set `{alertname: "HighCPU"}`. -/
def highCPULabels : KV := ⟨[("alertname", "HighCPU")], by decide⟩

/-- The label set `{alertname: "HighCPU", severity: "critical"}`. -/
def highCPUCommon : KV := ⟨[("severity", "critical"), ("alertname", "HighCPU")], by decide⟩

/-- A firing group of three firing alerts, grouped by `alertname`. -/
def highCPU : Data :=
  ⟨"zulip", "firing", [alertWithStatus "firing", alertWithStatus "firing",
    alertWithStatus "firing"], highCPULabels, highCPUCommon, KV.empty, ""⟩

/-- The label set `{account: "acme", alertname: "HighCPU"}`. -/
def accountLabels : KV := ⟨[("account", "acme"), ("alertname", "HighCPU")], by decide⟩

/-- A firing group of one firing and one resolved alert, grouped by `alertname` and
`account`. -/
def accountGroup : Data :=
  ⟨"zulip", "firing", [alertWithStatus "firing", alertWithStatus "resolved"],
    accountLabels, accountLabels, KV.empty, ""⟩

/-- The label set `{alertname: "Disk"}`. -/
def diskLabels : KV := ⟨[("alertname", "Disk")], by decide⟩

/-- A resolved group whose common labels are its group labels. -/
def diskGroup : Data :=
  ⟨"zulip", "resolved", [alertWithStatus "resolved"], diskLabels, diskLabels, KV.empty, ""⟩

/-- The label set `{severity: "warning"}`. -/
def severityLabels : KV := ⟨[("severity", "warning")], by decide⟩

/-- A resolved group whose common labels do not contain its group labels. -/
def strayGroup : Data :=
  ⟨"zulip", "resolved", [alertWithStatus "resolved"], diskLabels, severityLabels,
    KV.empty, ""⟩

/-- The label set `{alertname: "Disk", severity: ""}`. -/
def blankSeverity : KV := ⟨[("alertname", "Disk"), ("severity", "")], by decide⟩

/-- A resolved group with one further common label, whose value is the empty string. -/
def blankGroup : Data :=
  ⟨"zulip", "resolved", [alertWithStatus "resolved"], diskLabels, blankSeverity,
    KV.empty, ""⟩

/-- A firing group that is grouped by `severity` only. -/
def unnamedGroup : Data :=
  ⟨"zulip", "firing", [alertWithStatus "firing"], severityLabels, severityLabels,
    KV.empty, ""⟩

/-- The label set `{account: "acme", alertname: "HighCPU", severity: "warning"}`. -/
def accountCommon : KV :=
  ⟨[("severity", "warning"), ("account", "acme"), ("alertname", "HighCPU")], by decide⟩

/-- A firing group that is grouped by `severity` only and has two further common
labels, one of them the alert name. -/
def severityGroup : Data :=
  ⟨"zulip", "firing", [alertWithStatus "firing"], severityLabels, accountCommon,
    KV.empty, ""⟩

/-- A template whose source is plain text without actions: executing it writes the
text, whatever the data. -/
def textTpl (name text : String) : Template :=
  { name := name, run := fun _ => (text, none) }

/-- A message whose JSON object had none of the fields of `template.Data`. -/
def bareMessage : Message := ⟨none, "4", "", 0⟩

/-- A message carrying the resolved group `diskGroup`. -/
def diskMessage : Message := ⟨some diskGroup, "4", "", 0⟩

/-- A test double for the library calls: an empty body fails to decode with `EOF`, the
body `{"version":"4"}` decodes to a message without alert group data, any other body
stands for the JSON of `diskMessage`; a URL without a scheme is refused by
`NewRequest`; the chat API answers every request with `reply`. -/
def testEnv (reply : Except String HttpResponse) : Env where
  Decode := fun body =>
    if body = "" then .error "EOF"
    else if body = "\x7b\"version\":\"4\"\x7d" then .ok bareMessage
    else .ok diskMessage
  QueryEscape := fun s => s
  NewRequest := fun method url body =>
    if url = ":/api/v1/messages" then
      .error "parse \":/api/v1/messages\": missing protocol scheme"
    else .ok ⟨method, url, [], body⟩
  base64 := fun s => s
  Do := fun _ => reply

/-- The default settings of `main`. -/
def defaultConfig : Config :=
  ⟨"https://team.zulipchat.com", "alerts", "zulip@example.com", "hunter2"⟩

/-- All counters at zero. -/
def zeroMetrics : Metrics := ⟨fun _ => 0⟩

/-- The library calls `env` with the chat API exchanged for `client`. -/
def Env.withDo (env : Env) (client : Request → Except String HttpResponse) : Env :=
  ⟨env.Decode, env.QueryEscape, env.NewRequest, env.base64, client⟩

/-! ## The order of `sort.Strings` -/

theorem lessCodes_irrefl (l : List Nat) : lessCodes l l = false := by
  induction l with
  | nil => rfl
  | cons a as ih => simp [lessCodes, ih]

theorem lessCodes_asymm : ∀ (a b : List Nat), lessCodes a b = true → lessCodes b a = false
  | [], [] => by simp [lessCodes]
  | [], _ :: _ => by simp [lessCodes]
  | _ :: _, [] => by simp [lessCodes]
  | a :: as, b :: bs => by
    have ih := lessCodes_asymm as bs
    simp only [lessCodes, Bool.or_eq_true, Bool.and_eq_true, decide_eq_true_eq,
      Bool.or_eq_false_iff, Bool.and_eq_false_iff, decide_eq_false_iff_not]
    rintro (h | ⟨h, h2⟩)
    · exact ⟨by omega, Or.inl (by omega)⟩
    · exact ⟨by omega, Or.inr (ih h2)⟩

theorem lessCodes_connex : ∀ (a b : List Nat), lessCodes a b = false → lessCodes b a = false → a = b
  | [], [] => by simp
  | [], _ :: _ => by simp [lessCodes]
  | _ :: _, [] => by simp [lessCodes]
  | a :: as, b :: bs => by
    have ih := lessCodes_connex as bs
    simp only [lessCodes, Bool.or_eq_false_iff, Bool.and_eq_false_iff, decide_eq_false_iff_not]
    rintro ⟨h1, h2⟩ ⟨h3, h4⟩
    have hab : a = b := by omega
    subst hab
    simp only [not_true_eq_false, false_or] at h2 h4
    rw [ih h2 h4]

theorem lessCodes_negtrans : ∀ (a b c : List Nat),
    lessCodes b a = false → lessCodes c b = false → lessCodes c a = false
  | [], [], [] => by simp [lessCodes]
  | [], [], _ :: _ => by simp [lessCodes]
  | [], _ :: _, c => by cases c <;> simp [lessCodes]
  | _ :: _, [], [] => by simp [lessCodes]
  | _ :: _, [], _ :: _ => by simp [lessCodes]
  | _ :: _, _ :: _, [] => by simp [lessCodes]
  | a :: as, b :: bs, c :: cs => by
    have ih := lessCodes_negtrans as bs cs
    simp only [lessCodes, Bool.or_eq_false_iff, Bool.and_eq_false_iff, decide_eq_false_iff_not]
    rintro ⟨h1, h2⟩ ⟨h3, h4⟩
    refine ⟨by omega, ?_⟩
    by_cases hca : c = a
    · right
      subst hca
      have hbc : b = c := by omega
      subst hbc
      simp only [not_true_eq_false, false_or] at h2 h4
      exact ih h2 h4
    · exact Or.inl hca

theorem codes_injective (a b : String) (h : codes a = codes b) : a = b := by
  have hinj : Function.Injective Char.toNat := by
    intro x y hxy
    exact Char.ext (UInt32.ext (by simpa [Char.toNat, UInt32.toNat] using hxy))
  have := List.map_injective_iff.mpr hinj h
  exact String.ext this

theorem stringLE_total (a b : String) : stringLE a b ∨ stringLE b a := by
  unfold stringLE stringLess
  cases h : lessCodes (codes b) (codes a)
  · exact Or.inl rfl
  · exact Or.inr (lessCodes_asymm _ _ h)

theorem stringLE_trans (a b c : String) (h1 : stringLE a b) (h2 : stringLE b c) :
    stringLE a c :=
  lessCodes_negtrans _ _ _ h1 h2

theorem stringLE_antisymm (a b : String) (h1 : stringLE a b) (h2 : stringLE b a) : a = b :=
  codes_injective _ _ (lessCodes_connex _ _ h2 h1)

theorem sortStrings_sorted (l : List String) : (sortStrings l).Sorted stringLE :=
  @List.sorted_insertionSort _ stringLE _ ⟨stringLE_total⟩ ⟨stringLE_trans⟩ l

theorem sortStrings_perm (l : List String) : (sortStrings l).Perm l :=
  List.perm_insertionSort stringLE l

theorem foldl_collectKey (l : List String) : ∀ (ks : List String) (n : Nat),
    l.foldl collectKey (ks, n) =
      (List.replicate (l.count AlertNameLabel) AlertNameLabel ++ ks ++
          l.filter (fun k => decide (k ≠ AlertNameLabel)),
        if AlertNameLabel ∈ l then 1 else n) := by
  induction l with
  | nil => intro ks n; simp
  | cons k l ih =>
    intro ks n
    rw [List.foldl_cons]
    by_cases hk : k = AlertNameLabel
    · subst hk
      simp only [collectKey, if_true, ih, List.count_cons_self, List.replicate_succ', 
        List.mem_cons, true_or, if_true, ne_eq, not_true_eq_false, decide_False,
        Bool.false_eq_true, not_false_eq_true, List.filter_cons_of_neg, ite_self]
      simp
    · have hk' : ¬ AlertNameLabel = k := fun h => hk h.symm
      simp [collectKey, hk, hk', ih, List.count_cons_of_ne]

theorem sortedKeys_eq (kv : KV) :
    sortedKeys kv =
      (if AlertNameLabel ∈ kv.keys then [AlertNameLabel] else []) ++
        sortStrings (kv.keys.filter (fun k => decide (k ≠ AlertNameLabel))) := by
  unfold sortedKeys collectKeys
  rw [foldl_collectKey]
  by_cases h : AlertNameLabel ∈ kv.keys
  · have hc : kv.keys.count AlertNameLabel = 1 :=
      List.count_eq_one_of_mem kv.nodup h
    simp [h, hc]
  · have hc : kv.keys.count AlertNameLabel = 0 := List.count_eq_zero_of_not_mem h
    simp [h, hc]

theorem Names_eq_sortedKeys (kv : KV) : kv.Names = sortedKeys kv := by
  simp [KV.Names, KV.SortedPairs, Pairs.Names, Function.comp_def]

theorem Values_eq_map (kv : KV) : kv.Values = kv.Names.map kv.index := by
  simp [KV.Values, KV.Names, KV.SortedPairs, Pairs.Names, Pairs.Values, Function.comp_def]

theorem mem_sortStrings (l : List String) (k : String) : k ∈ sortStrings l ↔ k ∈ l :=
  (sortStrings_perm l).mem_iff

theorem front_filter_perm (A : String) : ∀ (l : List String), l.Nodup →
    ((if A ∈ l then [A] else []) ++ l.filter (fun k => decide (k ≠ A))).Perm l
  | [], _ => by simp
  | x :: l, hnd => by
    have hx : x ∉ l := (List.nodup_cons.mp hnd).1
    have ih := front_filter_perm A l (List.nodup_cons.mp hnd).2
    by_cases hxA : x = A
    · subst hxA
      have hf : l.filter (fun k => decide (k ≠ x)) = l :=
        List.filter_eq_self.mpr (fun k hk => by
          simp only [ne_eq, decide_not, Bool.not_eq_true', decide_eq_false_iff_not]
          rintro rfl; exact hx hk)
      simp only [ne_eq, decide_not] at hf
      simp [hf]
    · have hAx : ¬ A = x := fun h => hxA h.symm
      have hmem : (A ∈ x :: l) ↔ A ∈ l := by simp [hAx]
      simp only [hmem, ne_eq, hxA, not_false_eq_true, decide_True, List.filter_cons_of_pos]
      exact List.perm_middle.trans (List.Perm.cons x ih)

theorem Names_perm (kv : KV) : kv.Names.Perm kv.keys := by
  rw [Names_eq_sortedKeys, sortedKeys_eq]
  exact (List.Perm.append_left _ (sortStrings_perm _)).trans
    (front_filter_perm AlertNameLabel kv.keys kv.nodup)

theorem mem_Names (kv : KV) (k : String) : k ∈ kv.Names ↔ k ∈ kv.keys :=
  (Names_perm kv).mem_iff

theorem Names_length (kv : KV) : kv.Names.length = kv.len := by
  rw [(Names_perm kv).length_eq]; simp [KV.keys, KV.len]

theorem lookup_of_mem_keys : ∀ (es : List (String × String)) (k : String),
    k ∈ es.map Prod.fst → ∃ v, es.lookup k = some v
  | [], k, h => by simp at h
  | (a, b) :: es, k, h => by
    by_cases hk : k = a
    · subst hk; exact ⟨b, by simp [List.lookup]⟩
    · have hmem : k ∈ es.map Prod.fst := by
        simp only [List.map_cons, List.mem_cons] at h
        rcases h with h | h
        · exact absurd h hk
        · exact h
      obtain ⟨v, hv⟩ := lookup_of_mem_keys es k hmem
      refine ⟨v, ?_⟩
      have : (k == a) = false := by simpa using hk
      simp [List.lookup, this, hv]

theorem lookup_eq_some_index (kv : KV) (k : String) (h : k ∈ kv.keys) :
    kv.lookup k = some (kv.index k) := by
  obtain ⟨v, hv⟩ := lookup_of_mem_keys kv.entries k h
  simp [KV.index, KV.lookup, hv]

theorem lookup_filter : ∀ (es : List (String × String)) (p : String → Bool) (k : String),
    p k = true → (es.filter (fun e => p e.1)).lookup k = es.lookup k
  | [], _, _, _ => rfl
  | (a, b) :: es, p, k, hk => by
    have ih := lookup_filter es p k hk
    by_cases hka : k = a
    · subst hka
      simp [List.filter, hk, List.lookup]
    · have hbeq : (k == a) = false := by simpa using hka
      cases hp : p a
      · simp [List.filter, hp, List.lookup, hbeq, ih]
      · simp [List.filter, hp, List.lookup, hbeq, ih]

theorem Remove_keys (kv : KV) (ks : List String) :
    (kv.Remove ks).keys = kv.keys.filter (fun k => decide (k ∉ ks)) := by
  simp [KV.Remove, KV.keys, List.filter_map, Function.comp_def]

theorem Remove_lookup (kv : KV) (ks : List String) (k : String) (hk : k ∉ ks) :
    (kv.Remove ks).lookup k = kv.lookup k := by
  unfold KV.Remove KV.lookup
  exact lookup_filter kv.entries (fun k => decide (k ∉ ks)) k (by simpa using hk)

theorem Remove_index (kv : KV) (ks : List String) (k : String) (hk : k ∉ ks) :
    (kv.Remove ks).index k = kv.index k := by
  simp [KV.index, Remove_lookup kv ks k hk]

theorem Remove_Names_keys (kv g : KV) :
    (kv.Remove g.Names).keys = kv.keys.filter (fun k => decide (k ∉ g.keys)) := by
  rw [Remove_keys]
  apply List.filter_congr
  intro k _
  simp [mem_Names]

theorem Join_eq_empty_iff (l : List String) :
    Join l " " = "" ↔ l = [] ∨ l = [""] := by
  match l with
  | [] => simp [Join]
  | [a] => simp [Join]
  | a :: b :: rest =>
    simp only [Join, reduceCtorEq, List.cons.injEq, and_false, or_self, iff_false]
    intro h
    have := congrArg String.length h
    simp only [String.length_append] at this
    have h1 : " ".length = 1 := rfl
    have h0 : "".length = 0 := rfl
    omega

theorem Remove_len_add (kv g : KV) : kv.len ≤ (kv.Remove g.Names).len + g.len := by
  have h1 : (kv.Remove g.Names).len = (kv.keys.filter (fun k => decide (k ∉ g.keys))).length := by
    rw [← Remove_Names_keys]; simp [KV.keys, KV.len]
  have h2 : kv.len = kv.keys.length := by simp [KV.keys, KV.len]
  have h3 : g.len = g.keys.length := by simp [KV.keys, KV.len]
  have h4 : (kv.keys.filter (fun k => decide (k ∈ g.keys))).length ≤ g.keys.length := by
    apply List.Subperm.length_le
    apply List.subperm_of_subset (kv.nodup.filter _)
    intro k hk
    simpa using (List.mem_filter.mp hk).2
  have h5 := List.length_eq_countP_add_countP (fun k => decide (k ∈ g.keys)) kv.keys
  rw [List.countP_eq_length_filter, List.countP_eq_length_filter] at h5
  have h6 : (kv.keys.filter (fun a => decide ¬ (decide (a ∈ g.keys) = true))) =
      kv.keys.filter (fun k => decide (k ∉ g.keys)) := by
    apply List.filter_congr; intro k _; simp
  rw [h6] at h5
  omega

theorem len_le_of_keys_subset (c g : KV) (h : ∀ k, k ∈ c.keys → k ∈ g.keys) :
    c.len ≤ g.len := by
  have := (List.subperm_of_subset c.nodup h).length_le
  simpa [KV.keys, KV.len] using this

/-! ## The default templates -/

theorem ToUpper_firing (up : Char → Char) : ToUpper up "firing" = "FIRING" := by
  simp [ToUpper]; decide

theorem ToUpper_resolved (up : Char → Char) : ToUpper up "resolved" = "RESOLVED" := by
  simp [ToUpper]; decide

theorem Values_eq_front_sorted (kv : KV) :
    kv.Values =
      ((if AlertNameLabel ∈ kv.keys then [AlertNameLabel] else []) ++
        sortStrings (kv.keys.filter (fun k => decide (k ≠ AlertNameLabel)))).map kv.index := by
  rw [Values_eq_map, Names_eq_sortedKeys, sortedKeys_eq]

/-- C4 (as stated, refuted): the label set `{account: "acme", alertname: "HighCPU"}` has
`Names` equal to `["alertname", "account"]`, which is not in ascending order, because
`SortedPairs` keeps the alert name in front. -/
theorem names_not_ascending :
    accountLabels.Names = ["alertname", "account"] ∧
      stringLess "account" "alertname" = true ∧
      ¬ accountLabels.Names.Sorted stringLE := by
  decide

/-- C4 (amended): for every label set, `Names` is the alert name label first, when the
set has it, followed by all other keys in ascending order; it lists every key exactly
once, so it is ascending throughout when there is no alert name label; and `Values` has
the length of `Names`, its i-th element being the value stored under the i-th name. -/
theorem names_front_then_ascending (kv : KV) :
    (∃ rest : List String,
        kv.Names = (if AlertNameLabel ∈ kv.keys then [AlertNameLabel] else []) ++ rest ∧
        rest.Sorted stringLE ∧
        ∀ k, k ∈ rest ↔ (k ∈ kv.keys ∧ k ≠ AlertNameLabel)) ∧
      kv.Names.Perm kv.keys ∧
      (AlertNameLabel ∉ kv.keys → kv.Names.Sorted stringLE) ∧
      kv.Values.length = kv.Names.length ∧
      ∀ i : Nat, kv.Values[i]? = (kv.Names[i]?).bind kv.lookup := by
  have hN : kv.Names = (if AlertNameLabel ∈ kv.keys then [AlertNameLabel] else []) ++
      sortStrings (kv.keys.filter (fun k => decide (k ≠ AlertNameLabel))) := by
    rw [Names_eq_sortedKeys, sortedKeys_eq]
  refine ⟨⟨_, hN, sortStrings_sorted _, ?_⟩, Names_perm kv, ?_, ?_, ?_⟩
  · intro k
    rw [mem_sortStrings]
    simp [List.mem_filter]
  · intro h
    rw [hN]
    simpa [h] using sortStrings_sorted _
  · rw [Values_eq_map, List.length_map]
  · intro i
    rw [Values_eq_map, List.getElem?_map]
    cases hi : kv.Names[i]? with
    | none => rfl
    | some k =>
      have hk : k ∈ kv.keys := (mem_Names kv k).mp (List.getElem?_mem hi)
      simp [lookup_eq_some_index kv k hk]

/-- C4 (amended), at `{account: "acme", alertname: "HighCPU"}`: the names are the alert
name and then `account`, the values are aligned with them. -/
theorem names_front_then_ascending_witness :
    accountLabels.Names = ["alertname", "account"] ∧
      accountLabels.Values = ["HighCPU", "acme"] ∧
      accountLabels.Values.length = accountLabels.Names.length ∧
      (AlertNameLabel ∉ severityLabels.keys → severityLabels.Names.Sorted stringLE) :=
  ⟨by decide, by decide, (names_front_then_ascending accountLabels).2.2.2.1,
    (names_front_then_ascending severityLabels).2.2.1⟩

theorem statusTag_firing (up : Char → Char) (d : Data) (h : d.Status = "firing") :
    "[" ++ statusTag up d ++ "] " =
      "[FIRING:" ++ toString (d.Alerts.countP (fun a => decide (a.Status = "firing"))) ++
        "] " := by
  have hc : (Alerts.Firing d.Alerts).length =
      d.Alerts.countP (fun a => decide (a.Status = "firing")) := by
    rw [List.countP_eq_length_filter]; rfl
  have h0 : "[FIRING:" = "[" ++ ("FIRING" ++ ":") := by decide
  unfold statusTag
  rw [h, ToUpper_firing, if_pos rfl, hc, h0]
  simp only [String.append_assoc]

theorem statusTag_resolved (up : Char → Char) (d : Data) (h : d.Status = "resolved") :
    "[" ++ statusTag up d ++ "] " = "[RESOLVED] " := by
  have h0 : ¬ ("resolved" = "firing") := by decide
  unfold statusTag
  rw [h, ToUpper_resolved, if_neg h0]
  decide

/-- C1 (as stated, refuted): the firing group with group labels
`{account: "acme", alertname: "HighCPU"}` renders as `[FIRING:1] HighCPU acme `, the
alert name first, and so does not start with the values in ascending order of the label
names, which would be `[FIRING:1] acme HighCPU`. -/
theorem firing_message_not_in_name_order :
    accountGroup.Status = "firing" ∧
      defaultMessage Char.toUpper accountGroup = "[FIRING:1] HighCPU acme " ∧
      "[FIRING:1] " ++ Join (valuesInNameOrder accountGroup.GroupLabels) " " =
        "[FIRING:1] acme HighCPU" ∧
      ¬ startsWith (defaultMessage Char.toUpper accountGroup)
        ("[FIRING:1] " ++ Join (valuesInNameOrder accountGroup.GroupLabels) " ") := by
  decide

/-- C1 (amended): for every alert group whose status is `firing`, the default message is
`[FIRING:n] `, with `n` the number of alerts whose own status is firing, immediately
followed by the values of the group labels joined by single spaces, the value of the
alert name label first when there is one and the other values in ascending order of
their label names; a space and the optional parenthetical follow. -/
theorem firing_message_start (unicodeToUpper : Char → Char) (d : Data)
    (h : d.Status = "firing") :
    ∃ rest : List String,
      rest.Sorted stringLE ∧
      rest.Perm (d.GroupLabels.keys.filter (fun k => decide (k ≠ AlertNameLabel))) ∧
      defaultMessage unicodeToUpper d =
        "[FIRING:" ++ toString (d.Alerts.countP (fun a => decide (a.Status = "firing"))) ++
          "] " ++
          Join (((if AlertNameLabel ∈ d.GroupLabels.keys then [AlertNameLabel] else []) ++
            rest).map d.GroupLabels.index) " " ++
          " " ++ parenthetical d := by
  refine ⟨_, sortStrings_sorted _, sortStrings_perm _, ?_⟩
  unfold defaultMessage
  rw [statusTag_firing unicodeToUpper d h]
  have hv : d.GroupLabels.SortedPairs.Values = d.GroupLabels.Values := rfl
  rw [hv, Values_eq_front_sorted]
  rfl

/-- C1 (amended), at the scenario of the specification: three firing alerts grouped by
`alertname: HighCPU` with the common label `severity: critical` give exactly
`[FIRING:3] HighCPU (critical)`. -/
theorem firing_message_start_witness :
    highCPU.Status = "firing" ∧
      defaultMessage Char.toUpper highCPU = "[FIRING:3] HighCPU (critical)" :=
  ⟨rfl, by
    obtain ⟨rest, _, hperm, hmsg⟩ := firing_message_start Char.toUpper highCPU rfl
    have hnil : rest = [] := List.Perm.eq_nil (hperm.trans (by decide))
    rw [hmsg, hnil]
    decide⟩

/-- C2 (as stated, refuted): the resolved group with `groupLabels = commonLabels =
{alertname: "Disk"}` renders as `[RESOLVED] Disk ` with a trailing space, the literal
space that the template has in front of its closing `if`; it is not `[RESOLVED] Disk`. -/
theorem resolved_message_trailing_space :
    diskGroup.Status = "resolved" ∧
      (∀ k, k ∈ diskGroup.CommonLabels.keys → k ∈ diskGroup.GroupLabels.keys) ∧
      defaultMessage Char.toUpper diskGroup = "[RESOLVED] Disk " ∧
      defaultMessage Char.toUpper diskGroup ≠
        "[RESOLVED] " ++ Join diskGroup.GroupLabels.Values " " := by
  refine ⟨rfl, ?_, by decide, by decide⟩
  intro k hk
  exact hk

theorem parenthetical_of_le (d : Data) (h : d.CommonLabels.len ≤ d.GroupLabels.len) :
    parenthetical d = "" := by
  unfold parenthetical
  rw [if_neg (by omega)]

/-- C2 (amended): for every alert group whose status is `resolved` and whose common
labels have no name beyond the group label names, the default message is exactly
`[RESOLVED] `, the space-joined group label values and one space: no count and no
parenthetical. -/
theorem resolved_message_exact (unicodeToUpper : Char → Char) (d : Data)
    (h : d.Status = "resolved")
    (hc : ∀ k, k ∈ d.CommonLabels.keys → k ∈ d.GroupLabels.keys) :
    defaultMessage unicodeToUpper d =
      "[RESOLVED] " ++ Join d.GroupLabels.Values " " ++ " " := by
  unfold defaultMessage
  rw [statusTag_resolved unicodeToUpper d h,
    parenthetical_of_le d (len_le_of_keys_subset _ _ hc)]
  simp [join, KV.Values]

/-- C2 (amended), at the scenario of the specification: `[RESOLVED] Disk ` and a
space. -/
theorem resolved_message_exact_witness :
    diskGroup.Status = "resolved" ∧
      (∀ k, k ∈ diskGroup.CommonLabels.keys → k ∈ diskGroup.GroupLabels.keys) ∧
      defaultMessage Char.toUpper diskGroup = "[RESOLVED] Disk " :=
  ⟨rfl, fun _ hk => hk,
    (resolved_message_exact Char.toUpper diskGroup rfl (fun _ hk => hk)).trans (by decide)⟩

/-- C5 (as stated, refuted): for a group without an `alertname` group label the default
topic renders, and it is the text `<no value>`, not the empty string. -/
theorem topic_without_alertname :
    unnamedGroup.GroupLabels.lookup "alertname" = none ∧
      defaultTopicTpl.Execute (some unnamedGroup) = ("<no value>", none) ∧
      defaultTopicTpl.Execute (some unnamedGroup) ≠ ("", none) := by
  decide

/-- C5 (amended): for every alert group, rendering the default topic template succeeds;
the topic is the value of the `alertname` entry of the group labels when that entry
exists, and the text `<no value>` when it does not. -/
theorem default_topic (d : Data) :
    (defaultTopicTpl.Execute (some d)).2 = none ∧
      (∀ v, d.GroupLabels.lookup "alertname" = some v →
        defaultTopicTpl.Execute (some d) = (v, none)) ∧
      (d.GroupLabels.lookup "alertname" = none →
        defaultTopicTpl.Execute (some d) = ("<no value>", none)) := by
  refine ⟨rfl, ?_, ?_⟩
  · intro v hv
    simp [defaultTopicTpl, Template.Execute, defaultTopicRun, printIndex, hv]
  · intro hv
    simp [defaultTopicTpl, Template.Execute, defaultTopicRun, printIndex, hv]

/-- C5 (amended), at two groups: grouped by `alertname: HighCPU` the topic is `HighCPU`;
grouped by `severity` only it is `<no value>`. -/
theorem default_topic_witness :
    highCPU.GroupLabels.lookup "alertname" = some "HighCPU" ∧
      defaultTopicTpl.Execute (some highCPU) = ("HighCPU", none) ∧
      unnamedGroup.GroupLabels.lookup "alertname" = none ∧
      defaultTopicTpl.Execute (some unnamedGroup) = ("<no value>", none) :=
  ⟨by decide, (default_topic highCPU).2.1 "HighCPU" (by decide), by decide,
    (default_topic unnamedGroup).2.2 (by decide)⟩

theorem mem_front_sorted (l : List String) (k : String)
    (h : k ∈ (if AlertNameLabel ∈ l then [AlertNameLabel] else []) ++
      sortStrings (l.filter (fun k => decide (k ≠ AlertNameLabel)))) : k ∈ l := by
  rcases List.mem_append.mp h with h | h
  · by_cases hA : AlertNameLabel ∈ l
    · simp only [hA, if_true, List.mem_singleton] at h
      rw [h]; exact hA
    · simp [hA] at h
  · exact (List.mem_filter.mp ((mem_sortStrings _ _).mp h)).1

theorem Removed_Values (c g : KV) :
    (c.Remove g.Names).Values =
      ((if AlertNameLabel ∈ c.keys.filter (fun k => decide (k ∉ g.keys))
          then [AlertNameLabel] else []) ++
        sortStrings ((c.keys.filter (fun k => decide (k ∉ g.keys))).filter
          (fun k => decide (k ≠ AlertNameLabel)))).map c.index := by
  rw [Values_eq_front_sorted, Remove_Names_keys]
  apply List.map_congr_left
  intro k hk
  have hk' := mem_front_sorted _ k hk
  have hg : k ∉ g.keys := by simpa using (List.mem_filter.mp hk').2
  exact Remove_index c g.Names k (fun h => hg ((mem_Names g k).mp h))

theorem parenthetical_of_gt (d : Data) (h : d.CommonLabels.len > d.GroupLabels.len) :
    parenthetical d =
      "(" ++ Join (d.CommonLabels.Remove d.GroupLabels.Names).Values " " ++ ")" := by
  have hpos : 0 < (d.CommonLabels.Remove d.GroupLabels.Names).len := by
    have := Remove_len_add d.CommonLabels d.GroupLabels
    omega
  unfold parenthetical withRemoved
  simp only [h, if_true, hpos, join]

theorem len_gt_iff_extra (c g : KV) (hsub : ∀ k, k ∈ g.keys → k ∈ c.keys) :
    c.len > g.len ↔ ∃ k, k ∈ c.keys ∧ k ∉ g.keys := by
  constructor
  · intro h
    by_contra hne
    have hall : ∀ k, k ∈ c.keys → k ∈ g.keys := by
      intro k hk
      by_contra hkg
      exact hne ⟨k, hk, hkg⟩
    have := len_le_of_keys_subset c g hall
    omega
  · rintro ⟨k, hkc, hkg⟩
    have hnd : (k :: g.keys).Nodup := List.nodup_cons.mpr ⟨hkg, g.nodup⟩
    have hss : (k :: g.keys) ⊆ c.keys := by
      intro x hx
      rcases List.mem_cons.mp hx with rfl | hx
      · exact hkc
      · exact hsub x hx
    have := (List.subperm_of_subset hnd hss).length_le
    simp only [List.length_cons, KV.keys, List.length_map] at this
    simp only [KV.len]
    omega

/-- C3 (as stated, refuted): with common labels `{severity: "warning"}` and group labels
`{alertname: "Disk"}` the common labels have a name that is no group label name, yet the
message has no parenthetical, the two sets being of the same size; and with common
labels `{account, alertname, severity}` over the group label `severity` the
parenthetical is `(HighCPU acme)`, the alert name first, not in ascending order of the
names `account`, `alertname`. -/
theorem parenthetical_not_by_membership :
    (∃ k, k ∈ strayGroup.CommonLabels.keys ∧ k ∉ strayGroup.GroupLabels.keys) ∧
      parenthetical strayGroup = "" ∧
      defaultMessage Char.toUpper strayGroup = "[RESOLVED] Disk " ∧
      defaultMessage Char.toUpper severityGroup = "[FIRING:1] warning (HighCPU acme)" ∧
      stringLess "account" "alertname" = true :=
  ⟨⟨"severity", by decide, by decide⟩, by decide, by decide, by decide, by decide⟩

/-- C3 (amended): for every alert group, superset or not, the default message ends with
a parenthesized list exactly when the common labels are more than the group labels
(which, when every group label name is a common label name, is exactly when some common
label name is no group label name); the content of the parentheses is then the
space-joined values of exactly those common labels whose names are no group label
names, the alert name label first when it is among them and the others in ascending
order of their names. -/
theorem parenthetical_by_size (unicodeToUpper : Char → Char) (d : Data) :
    let extra := d.CommonLabels.keys.filter (fun k => decide (k ∉ d.GroupLabels.keys))
    ∃ rest : List String,
      rest.Sorted stringLE ∧
      rest.Perm (extra.filter (fun k => decide (k ≠ AlertNameLabel))) ∧
      (∀ k, k ∈ (if AlertNameLabel ∈ extra then [AlertNameLabel] else []) ++ rest ↔
        (k ∈ d.CommonLabels.keys ∧ k ∉ d.GroupLabels.keys)) ∧
      defaultMessage unicodeToUpper d =
        "[" ++ statusTag unicodeToUpper d ++ "] " ++ Join d.GroupLabels.Values " " ++ " " ++
          (if d.CommonLabels.len > d.GroupLabels.len
            then "(" ++ Join (((if AlertNameLabel ∈ extra then [AlertNameLabel] else []) ++
              rest).map d.CommonLabels.index) " " ++ ")"
            else "") ∧
      ((∀ k, k ∈ d.GroupLabels.keys → k ∈ d.CommonLabels.keys) →
        (d.CommonLabels.len > d.GroupLabels.len ↔
          ∃ k, k ∈ d.CommonLabels.keys ∧ k ∉ d.GroupLabels.keys)) := by
  intro extra
  refine ⟨_, sortStrings_sorted _, sortStrings_perm _, ?_, ?_,
    len_gt_iff_extra d.CommonLabels d.GroupLabels⟩
  · intro k
    have hperm := front_filter_perm AlertNameLabel extra
      (d.CommonLabels.nodup.filter _)
    have hperm2 : ((if AlertNameLabel ∈ extra then [AlertNameLabel] else []) ++
        sortStrings (extra.filter (fun k => decide (k ≠ AlertNameLabel)))).Perm extra :=
      (List.Perm.append_left _ (sortStrings_perm _)).trans hperm
    rw [hperm2.mem_iff]
    simp [extra, List.mem_filter]
  · have hp : parenthetical d = (if d.CommonLabels.len > d.GroupLabels.len
        then "(" ++ Join (((if AlertNameLabel ∈ extra then [AlertNameLabel] else []) ++
          sortStrings (extra.filter (fun k => decide (k ≠ AlertNameLabel)))).map
            d.CommonLabels.index) " " ++ ")"
        else "") := by
      by_cases h : d.CommonLabels.len > d.GroupLabels.len
      · rw [if_pos h, parenthetical_of_gt d h, Removed_Values]
      · rw [if_neg h, parenthetical_of_le d (by omega)]
    rw [← hp]
    rfl

/-- C3 (amended), at the scenario of the specification and at a group that has an
`alertname` among the extra common labels. -/
theorem parenthetical_by_size_witness :
    defaultMessage Char.toUpper highCPU = "[FIRING:3] HighCPU (critical)" ∧
      defaultMessage Char.toUpper severityGroup = "[FIRING:1] warning (HighCPU acme)" ∧
      ((∀ k, k ∈ highCPU.GroupLabels.keys → k ∈ highCPU.CommonLabels.keys) →
        (highCPU.CommonLabels.len > highCPU.GroupLabels.len ↔
          ∃ k, k ∈ highCPU.CommonLabels.keys ∧ k ∉ highCPU.GroupLabels.keys)) :=
  ⟨by
      obtain ⟨rest, _, hperm, _, hmsg, _⟩ := parenthetical_by_size Char.toUpper highCPU
      have hrest : rest = ["severity"] := List.perm_singleton.mp (hperm.trans (by decide))
      rw [hmsg, hrest]
      decide,
    by
      obtain ⟨rest, hsorted, hperm, _, hmsg, _⟩ :=
        parenthetical_by_size Char.toUpper severityGroup
      have hrest : rest = ["account"] := List.perm_singleton.mp (hperm.trans (by decide))
      rw [hmsg, hrest]
      decide,
    by
      obtain ⟨_, _, _, _, _, hiff⟩ := parenthetical_by_size Char.toUpper highCPU
      exact hiff⟩

/-- C9 (as stated, refuted): with common labels `{alertname: "Disk", severity: ""}` over
the group label `alertname` the guard holds, one label is left after the removal, and
the message is `[RESOLVED] Disk ()`: the one enclosed value is the empty string, so the
message does contain `()`. -/
theorem empty_parentheses_from_blank_value :
    blankGroup.CommonLabels.len > blankGroup.GroupLabels.len ∧
      (blankGroup.CommonLabels.Remove blankGroup.GroupLabels.Names).Values = [""] ∧
      parenthetical blankGroup = "()" ∧
      defaultMessage Char.toUpper blankGroup = "[RESOLVED] Disk ()" := by
  decide

/-- C9 (amended): for every alert group, with no assumption relating the common labels
to the group labels, whenever the guard `len(CommonLabels) > len(GroupLabels)` holds,
removing the group label names from the common labels leaves at least one label, so
the parentheses always enclose at least one value; the text between them is empty only
when exactly one label is left and its value is the empty string. -/
theorem parentheses_enclose_a_value (d : Data)
    (h : d.CommonLabels.len > d.GroupLabels.len) :
    0 < (d.CommonLabels.Remove d.GroupLabels.Names).len ∧
      (d.CommonLabels.Remove d.GroupLabels.Names).Values.length =
        (d.CommonLabels.Remove d.GroupLabels.Names).len ∧
      parenthetical d =
        "(" ++ Join (d.CommonLabels.Remove d.GroupLabels.Names).Values " " ++ ")" ∧
      (Join (d.CommonLabels.Remove d.GroupLabels.Names).Values " " = "" ↔
        (d.CommonLabels.Remove d.GroupLabels.Names).Values = [""]) := by
  have hpos : 0 < (d.CommonLabels.Remove d.GroupLabels.Names).len := by
    have := Remove_len_add d.CommonLabels d.GroupLabels
    omega
  have hlen : (d.CommonLabels.Remove d.GroupLabels.Names).Values.length =
      (d.CommonLabels.Remove d.GroupLabels.Names).len := by
    rw [Values_eq_map, List.length_map, Names_length]
  refine ⟨hpos, hlen, parenthetical_of_gt d h, ?_⟩
  rw [Join_eq_empty_iff]
  constructor
  · rintro (h0 | h1)
    · rw [h0] at hlen
      simp only [List.length_nil] at hlen
      omega
    · exact h1
  · intro h1
    exact Or.inr h1

/-- C9 (amended), at the scenario of the specification (one value, `critical`) and at a
group that is no superset of its group labels (two values left). -/
theorem parentheses_enclose_a_value_witness :
    highCPU.CommonLabels.len > highCPU.GroupLabels.len ∧
      parenthetical highCPU = "(critical)" ∧
      severityGroup.CommonLabels.len > severityGroup.GroupLabels.len ∧
      0 < (severityGroup.CommonLabels.Remove severityGroup.GroupLabels.Names).len :=
  ⟨by decide, (parentheses_enclose_a_value highCPU (by decide)).2.2.1.trans (by decide),
    by decide, (parentheses_enclose_a_value severityGroup (by decide)).1⟩

/-! ## `formatAlerts` -/

/-- C7: `formatAlerts` returns the full output of both templates and no error exactly
when both executions succeed; when the topic template fails, or the topic template
succeeds and the message template fails, it returns two empty strings, whatever was
already written, and an error that names the failed template (`topic` or `message`)
and carries the failure text of the execution. -/
theorem formatAlerts_contract (topicTpl messageTpl : Template) (msg : Message)
    (hTopic : topicTpl.name = "topic") (hMessage : messageTpl.name = "message") :
    (∀ topic message : String,
        formatAlerts topicTpl messageTpl msg = (topic, message, none) ↔
          (topicTpl.Execute msg.Data = (topic, none) ∧
            messageTpl.Execute msg.Data = (message, none))) ∧
      (∀ written cause : String, topicTpl.run msg.Data = (written, some cause) →
        formatAlerts topicTpl messageTpl msg =
          ("", "", some { Name := "topic", Err := cause })) ∧
      (∀ topic written cause : String, topicTpl.run msg.Data = (topic, none) →
        messageTpl.run msg.Data = (written, some cause) →
        formatAlerts topicTpl messageTpl msg =
          ("", "", some { Name := "message", Err := cause })) := by
  refine ⟨?_, ?_, ?_⟩
  · intro topic message
    unfold formatAlerts Template.Execute
    rcases ht : topicTpl.run msg.Data with ⟨t, _ | ct⟩ <;>
      rcases hm : messageTpl.run msg.Data with ⟨m', _ | cm⟩ <;>
      simp
  · intro written cause h
    simp [formatAlerts, Template.Execute, h, hTopic]
  · intro topic written cause h1 h2
    simp [formatAlerts, Template.Execute, h1, h2, hMessage]

/-- C7, at a message without alert group data: the default topic template fails and
`formatAlerts` names `topic`; behind a plain-text topic the default message template
fails after writing `[`, and `formatAlerts` returns two empty strings and names
`message`; on a resolved group both templates succeed. -/
theorem formatAlerts_contract_witness :
    formatAlerts defaultTopicTpl (defaultMessageTpl Char.toUpper) bareMessage =
        ("", "", some ⟨"topic", errorf "topic:1:15" "topic"
          ".GroupLabels.alertname" "nil pointer evaluating **template.Data.GroupLabels"⟩) ∧
      (defaultMessageTpl Char.toUpper).run bareMessage.Data =
        ("[", some (errorf "message:1:4" "message" ".Status"
          "nil pointer evaluating **template.Data.Status")) ∧
      formatAlerts (textTpl "topic" "alerts") (defaultMessageTpl Char.toUpper) bareMessage =
        ("", "", some ⟨"message", errorf "message:1:4" "message" ".Status"
          "nil pointer evaluating **template.Data.Status"⟩) ∧
      formatAlerts defaultTopicTpl (defaultMessageTpl Char.toUpper)
        ⟨some diskGroup, "4", "", 0⟩ = ("Disk", "[RESOLVED] Disk ", none) :=
  ⟨(formatAlerts_contract defaultTopicTpl (defaultMessageTpl Char.toUpper) bareMessage
      rfl rfl).2.1 _ _ rfl,
    rfl,
    (formatAlerts_contract (textTpl "topic" "alerts") (defaultMessageTpl Char.toUpper)
      bareMessage rfl rfl).2.2 _ _ _ rfl rfl,
    ((formatAlerts_contract defaultTopicTpl (defaultMessageTpl Char.toUpper)
      ⟨some diskGroup, "4", "", 0⟩ rfl rfl).1 _ _).mpr ⟨by decide, by decide⟩⟩

/-! ## The `/webhook` handler -/

theorem Inc_value (m : Metrics) (c c' : Counter) :
    (m.Inc c).value c' = m.value c' + (if c' = c then 1 else 0) := by
  unfold Metrics.Inc
  by_cases h : c' = c <;> simp [h]

theorem Inc_injective (m : Metrics) (c c' : Counter) (h : m.Inc c = m.Inc c') : c = c' := by
  have h1 := congrArg (fun x => x.value c) h
  simp only [Inc_value, if_true] at h1
  by_contra hne
  rw [if_neg hne] at h1
  omega

theorem existsUnique_Inc (m : Metrics) (c : Counter) : ∃! c', m.Inc c = m.Inc c' :=
  ⟨c, rfl, fun _ h => (Inc_injective m c _ h).symm⟩

theorem counted_once_unique (m m' : Metrics) (c : Counter)
    (h : ∀ c', m'.value c' = m.value c' + (if c' = c then 1 else 0)) :
    ∃! c : Counter, ∀ c', m'.value c' = m.value c' + (if c' = c then 1 else 0) := by
  refine ⟨c, h, ?_⟩
  intro c2 h2
  have h3 := h c
  have h4 := h2 c
  rw [if_pos rfl] at h3
  by_contra hne
  rw [if_neg (fun hc => hne hc.symm)] at h4
  omega

theorem webhookHandler_counts (env : Env) (cfg : Config) (topicTpl messageTpl : Template)
    (m : Metrics) (body : String) :
    ∃ c : Counter, (webhookHandler env cfg topicTpl messageTpl m body).metrics = m.Inc c := by
  unfold webhookHandler
  split
  · exact ⟨_, rfl⟩
  · split
    · exact ⟨_, rfl⟩
    · split
      · exact ⟨_, rfl⟩
      · split <;> exact ⟨_, rfl⟩

/-- C6: the handler gives every request exactly one of five outcomes and increments
exactly one counter, by one, leaving every other counter as it was: a decode failure
gives status 400 with the error text as body and counts `errors{invalid input}`; a
render failure gives 500 with the error text and counts `errors{template error}`; a
failure to build the outbound request gives 500 and counts
`errors{request creation error}`; a failure to send it gives 500 and counts
`errors{request error}`; otherwise the reply is 200 with body `ok` and `sent{topic}` is
counted.  After a decode or render failure nothing is handed to `client.Do`. -/
theorem webhook_outcomes (env : Env) (cfg : Config) (topicTpl messageTpl : Template)
    (m : Metrics) (body : String) :
    let out := webhookHandler env cfg topicTpl messageTpl m body
    (∃! c : Counter, ∀ c', out.metrics.value c' = m.value c' + (if c' = c then 1 else 0)) ∧
      (∀ err, env.Decode body = .error err →
        out.response.status = 400 ∧ out.response.body = err ++ "\n" ∧
        out.response.header = [("Content-Type", "text/plain; charset=utf-8"),
          ("X-Content-Type-Options", "nosniff")] ∧
        (∀ c, out.metrics.value c =
          m.value c + (if c = .errors "invalid input" then 1 else 0)) ∧
        out.posted = []) ∧
      (∀ msg t s err, env.Decode body = .ok msg →
        formatAlerts topicTpl messageTpl msg = (t, s, some err) →
        out.response.status = 500 ∧ out.response.body = err.Err ++ "\n" ∧
        out.response.header = [("Content-Type", "text/plain; charset=utf-8"),
          ("X-Content-Type-Options", "nosniff")] ∧
        (∀ c, out.metrics.value c =
          m.value c + (if c = .errors "template error" then 1 else 0)) ∧
        out.posted = []) ∧
      (∀ msg topic message err, env.Decode body = .ok msg →
        formatAlerts topicTpl messageTpl msg = (topic, message, none) →
        env.NewRequest "POST" (cfg.url ++ "/api/v1/messages")
          (encodeForm env cfg topic message) = .error err →
        out.response.status = 500 ∧ out.response.body = err ++ "\n" ∧
        out.response.header = [("Content-Type", "text/plain; charset=utf-8"),
          ("X-Content-Type-Options", "nosniff")] ∧
        (∀ c, out.metrics.value c =
          m.value c + (if c = .errors "request creation error" then 1 else 0)) ∧
        out.posted = []) ∧
      (∀ msg topic message req err, env.Decode body = .ok msg →
        formatAlerts topicTpl messageTpl msg = (topic, message, none) →
        env.NewRequest "POST" (cfg.url ++ "/api/v1/messages")
          (encodeForm env cfg topic message) = .ok req →
        env.Do (withHeaders env cfg req) = .error err →
        out.response.status = 500 ∧ out.response.body = err ++ "\n" ∧
        out.response.header = [("Content-Type", "text/plain; charset=utf-8"),
          ("X-Content-Type-Options", "nosniff")] ∧
        (∀ c, out.metrics.value c =
          m.value c + (if c = .errors "request error" then 1 else 0)) ∧
        out.posted = [withHeaders env cfg req]) ∧
      (∀ msg topic message req resp, env.Decode body = .ok msg →
        formatAlerts topicTpl messageTpl msg = (topic, message, none) →
        env.NewRequest "POST" (cfg.url ++ "/api/v1/messages")
          (encodeForm env cfg topic message) = .ok req →
        env.Do (withHeaders env cfg req) = .ok resp →
        out.response.status = 200 ∧ out.response.body = "ok" ∧
        out.response.header = [("Content-Type", "text/plain")] ∧
        (∀ c, out.metrics.value c = m.value c + (if c = .sent topic then 1 else 0)) ∧
        out.posted = [withHeaders env cfg req]) := by
  intro out
  refine ⟨?_, ?_, ?_, ?_, ?_, ?_⟩
  · obtain ⟨c, hc⟩ := webhookHandler_counts env cfg topicTpl messageTpl m body
    refine counted_once_unique m out.metrics c ?_
    intro c'
    show (webhookHandler env cfg topicTpl messageTpl m body).metrics.value c' = _
    rw [hc, Inc_value]
  · intro err hd
    refine ⟨?_, ?_, ?_, ?_, ?_⟩ <;>
      simp [out, webhookHandler, hd, httpError, Inc_value]
  · intro msg t s err hd hf
    refine ⟨?_, ?_, ?_, ?_, ?_⟩ <;>
      simp [out, webhookHandler, hd, hf, httpError, Inc_value, ExecError.Error]
  · intro msg topic message err hd hf hn
    refine ⟨?_, ?_, ?_, ?_, ?_⟩ <;>
      simp [out, webhookHandler, hd, hf, hn, httpError, Inc_value]
  · intro msg topic message req err hd hf hn hdo
    refine ⟨?_, ?_, ?_, ?_, ?_⟩ <;>
      simp [out, webhookHandler, hd, hf, hn, hdo, httpError, Inc_value]
  · intro msg topic message req resp hd hf hn hdo
    refine ⟨?_, ?_, ?_, ?_, ?_⟩ <;>
      simp [out, webhookHandler, hd, hf, hn, hdo, Inc_value]

/-- C6, at four requests with all counters at zero: an empty body gives 400 with the
body `EOF` and a newline and counts `errors{invalid input}` once, nothing being posted;
a body without alert group data fails in the topic template, gives 500 and counts
`errors{template error}`; a group sent to a URL without scheme gives 500 with the parse
error and counts `errors{request creation error}`; a refused connection gives 500 and
counts `errors{request error}`; a group the chat API accepts gives 200 `ok` and counts
`sent{Disk}` once and no error. -/
theorem webhook_outcomes_witness :
    ((webhookHandler (testEnv (.ok ⟨200, ""⟩)) defaultConfig defaultTopicTpl
        (defaultMessageTpl Char.toUpper) zeroMetrics "").response.status = 400 ∧
      (webhookHandler (testEnv (.ok ⟨200, ""⟩)) defaultConfig defaultTopicTpl
        (defaultMessageTpl Char.toUpper) zeroMetrics "").response.body = "EOF\n" ∧
      (webhookHandler (testEnv (.ok ⟨200, ""⟩)) defaultConfig defaultTopicTpl
        (defaultMessageTpl Char.toUpper) zeroMetrics "").metrics.value
          (.errors "invalid input") = 1 ∧
      (webhookHandler (testEnv (.ok ⟨200, ""⟩)) defaultConfig defaultTopicTpl
        (defaultMessageTpl Char.toUpper) zeroMetrics "").posted = []) ∧
      ((webhookHandler (testEnv (.ok ⟨200, ""⟩)) defaultConfig defaultTopicTpl
        (defaultMessageTpl Char.toUpper) zeroMetrics
          "\x7b\"version\":\"4\"\x7d").response.status = 500 ∧
      (webhookHandler (testEnv (.ok ⟨200, ""⟩)) defaultConfig defaultTopicTpl
        (defaultMessageTpl Char.toUpper) zeroMetrics
          "\x7b\"version\":\"4\"\x7d").metrics.value (.errors "template error") = 1) ∧
      ((webhookHandler (testEnv (.ok ⟨200, ""⟩)) ⟨":", "alerts", "bot", "secret"⟩
        defaultTopicTpl (defaultMessageTpl Char.toUpper) zeroMetrics "disk").response.body =
          "parse \":/api/v1/messages\": missing protocol scheme\n" ∧
      (webhookHandler (testEnv (.ok ⟨200, ""⟩)) ⟨":", "alerts", "bot", "secret"⟩
        defaultTopicTpl (defaultMessageTpl Char.toUpper) zeroMetrics "disk").metrics.value
          (.errors "request creation error") = 1) ∧
      ((webhookHandler (testEnv (.error "dial tcp: connection refused")) defaultConfig
        defaultTopicTpl (defaultMessageTpl Char.toUpper) zeroMetrics "disk").response.status =
          500 ∧
      (webhookHandler (testEnv (.error "dial tcp: connection refused")) defaultConfig
        defaultTopicTpl (defaultMessageTpl Char.toUpper) zeroMetrics "disk").response.body =
          "dial tcp: connection refused\n" ∧
      (webhookHandler (testEnv (.error "dial tcp: connection refused")) defaultConfig
        defaultTopicTpl (defaultMessageTpl Char.toUpper) zeroMetrics "disk").metrics.value
          (.errors "request error") = 1) ∧
      ((webhookHandler (testEnv (.ok ⟨200, ""⟩)) defaultConfig defaultTopicTpl
        (defaultMessageTpl Char.toUpper) zeroMetrics "disk").response.status = 200 ∧
      (webhookHandler (testEnv (.ok ⟨200, ""⟩)) defaultConfig defaultTopicTpl
        (defaultMessageTpl Char.toUpper) zeroMetrics "disk").response.body = "ok" ∧
      (webhookHandler (testEnv (.ok ⟨200, ""⟩)) defaultConfig defaultTopicTpl
        (defaultMessageTpl Char.toUpper) zeroMetrics "disk").metrics.value
          (.sent "Disk") = 1 ∧
      (webhookHandler (testEnv (.ok ⟨200, ""⟩)) defaultConfig defaultTopicTpl
        (defaultMessageTpl Char.toUpper) zeroMetrics "disk").metrics.value
          (.errors "request error") = 0) := by
  have h1 := (webhook_outcomes (testEnv (.ok ⟨200, ""⟩)) defaultConfig defaultTopicTpl
    (defaultMessageTpl Char.toUpper) zeroMetrics "").2.1 "EOF" rfl
  have h2 := (webhook_outcomes (testEnv (.ok ⟨200, ""⟩)) defaultConfig defaultTopicTpl
    (defaultMessageTpl Char.toUpper) zeroMetrics "\x7b\"version\":\"4\"\x7d").2.2.1
      bareMessage "" "" _ rfl rfl
  have h3 := (webhook_outcomes (testEnv (.ok ⟨200, ""⟩)) ⟨":", "alerts", "bot", "secret"⟩
    defaultTopicTpl (defaultMessageTpl Char.toUpper) zeroMetrics "disk").2.2.2.1
      diskMessage "Disk" "[RESOLVED] Disk " _ rfl (by decide) rfl
  have h4 := (webhook_outcomes (testEnv (.error "dial tcp: connection refused"))
    defaultConfig defaultTopicTpl (defaultMessageTpl Char.toUpper) zeroMetrics
    "disk").2.2.2.2.1 diskMessage "Disk" "[RESOLVED] Disk " _ _ rfl (by decide) rfl rfl
  have h5 := (webhook_outcomes (testEnv (.ok ⟨200, ""⟩)) defaultConfig defaultTopicTpl
    (defaultMessageTpl Char.toUpper) zeroMetrics "disk").2.2.2.2.2
      diskMessage "Disk" "[RESOLVED] Disk " _ _ rfl (by decide) rfl rfl
  refine ⟨⟨h1.1, h1.2.1.trans rfl, ?_, h1.2.2.2.2⟩, ⟨h2.1, ?_⟩, ⟨h3.2.1.trans rfl, ?_⟩,
    ⟨h4.1, h4.2.1.trans rfl, ?_⟩, ⟨h5.1, h5.2.1, ?_, ?_⟩⟩
  · rw [h1.2.2.2.1]; rfl
  · rw [h2.2.2.2.1]; rfl
  · rw [h3.2.2.2.1]; rfl
  · rw [h4.2.2.2.1]; rfl
  · rw [h5.2.2.2.1]; rfl
  · rw [h5.2.2.2.1]; rfl

theorem webhookHandler_sent (env : Env) (cfg : Config) (topicTpl messageTpl : Template)
    (m : Metrics) (body : String) (msg : Message) (topic message : String) (req : Request)
    (resp : HttpResponse) (hd : env.Decode body = .ok msg)
    (hf : formatAlerts topicTpl messageTpl msg = (topic, message, none))
    (hn : env.NewRequest "POST" (cfg.url ++ "/api/v1/messages")
      (encodeForm env cfg topic message) = .ok req)
    (hdo : env.Do (withHeaders env cfg req) = .ok resp) :
    (webhookHandler env cfg topicTpl messageTpl m body).response =
        ⟨200, [("Content-Type", "text/plain")], "ok"⟩ ∧
      (webhookHandler env cfg topicTpl messageTpl m body).metrics = m.Inc (.sent topic) := by
  simp [webhookHandler, hd, hf, hn, hdo]

theorem webhookHandler_of_sent (env : Env) (cfg : Config) (topicTpl messageTpl : Template)
    (m : Metrics) (body : String) (client : Request → Except String HttpResponse)
    (h : ∀ req, ∃ resp, client req = .ok resp) :
    webhookHandler (env.withDo client) cfg topicTpl messageTpl m body =
      webhookHandler (env.withDo (fun _ => .ok ⟨200, ""⟩)) cfg topicTpl messageTpl m body := by
  unfold webhookHandler
  simp only [Env.withDo, encodeForm, withHeaders]
  split
  · rfl
  · split
    · rfl
    · split
      · rfl
      · rename_i req _
        obtain ⟨resp, hresp⟩ := h { req with Header := req.Header ++
          [("Content-Type", "application/x-www-form-urlencoded"),
           ("Authorization", "Basic " ++ env.base64 (cfg.username ++ ":" ++ cfg.password))] }
        simp only [hresp]

/-- C10: the result of the handler does not depend on the HTTP response of the chat
API: for any two clients that return a response without a transport error, whatever
its status, the handler gives the same reply, counters, outbound request and log; when
decoding, rendering and request creation succeed that reply is 200 `ok`, the `sent`
counter of the topic goes up by one, and no other counter, in particular no error
counter, changes. -/
theorem reply_independent_of_chat_response (env : Env) (cfg : Config)
    (topicTpl messageTpl : Template) (m : Metrics) (body : String)
    (client1 client2 : Request → Except String HttpResponse)
    (h1 : ∀ req, ∃ resp, client1 req = .ok resp)
    (h2 : ∀ req, ∃ resp, client2 req = .ok resp) :
    webhookHandler (env.withDo client1) cfg topicTpl messageTpl m body =
        webhookHandler (env.withDo client2) cfg topicTpl messageTpl m body ∧
      (∀ msg topic message req, env.Decode body = .ok msg →
        formatAlerts topicTpl messageTpl msg = (topic, message, none) →
        env.NewRequest "POST" (cfg.url ++ "/api/v1/messages")
          (encodeForm env cfg topic message) = .ok req →
        (webhookHandler (env.withDo client1) cfg topicTpl messageTpl m body).response =
            ⟨200, [("Content-Type", "text/plain")], "ok"⟩ ∧
          (webhookHandler (env.withDo client1) cfg topicTpl messageTpl m body).metrics =
            m.Inc (.sent topic) ∧
          (webhookHandler (env.withDo client1) cfg topicTpl messageTpl m body).metrics.value
            (.sent topic) = m.value (.sent topic) + 1 ∧
          (∀ c : Counter, c ≠ .sent topic →
            (webhookHandler (env.withDo client1) cfg topicTpl messageTpl m body).metrics.value
              c = m.value c) ∧
          ∀ type : String,
            (webhookHandler (env.withDo client1) cfg topicTpl messageTpl m body).metrics.value
              (.errors type) = m.value (.errors type)) := by
  refine ⟨?_, ?_⟩
  · rw [webhookHandler_of_sent env cfg topicTpl messageTpl m body client1 h1,
      webhookHandler_of_sent env cfg topicTpl messageTpl m body client2 h2]
  · intro msg topic message req hd hf hn
    obtain ⟨resp, hresp⟩ := h1 (withHeaders (env.withDo client1) cfg req)
    have hn' : (env.withDo client1).NewRequest "POST" (cfg.url ++ "/api/v1/messages")
        (encodeForm (env.withDo client1) cfg topic message) = .ok req := hn
    have hd' : (env.withDo client1).Decode body = .ok msg := hd
    have hdo : (env.withDo client1).Do (withHeaders (env.withDo client1) cfg req) =
        .ok resp := hresp
    have key := (webhookHandler_sent (env.withDo client1) cfg topicTpl messageTpl m body
      msg topic message req resp hd' hf hn' hdo)
    refine ⟨key.1, key.2, ?_, ?_, ?_⟩
    · rw [key.2, Inc_value, if_pos rfl]
    · intro c hc
      rw [key.2, Inc_value, if_neg hc]
      rfl
    · intro type
      rw [key.2, Inc_value]
      simp

/-- C10, at a chat API that answers 200 and one that answers 401, all counters at zero:
the handler result is the same, 200 `ok`, with `sent{Disk}` at one and
`errors{request error}` still at zero. -/
theorem reply_independent_of_chat_response_witness :
    webhookHandler ((testEnv (.ok ⟨200, ""⟩)).withDo (fun _ => .ok ⟨200, "\x7b\x7d"⟩))
        defaultConfig defaultTopicTpl (defaultMessageTpl Char.toUpper) zeroMetrics "disk" =
      webhookHandler ((testEnv (.ok ⟨200, ""⟩)).withDo
        (fun _ => .ok ⟨401, "\x7b\"result\":\"error\"\x7d"⟩))
        defaultConfig defaultTopicTpl (defaultMessageTpl Char.toUpper) zeroMetrics "disk" ∧
      (webhookHandler ((testEnv (.ok ⟨200, ""⟩)).withDo (fun _ => .ok ⟨200, "\x7b\x7d"⟩))
        defaultConfig defaultTopicTpl (defaultMessageTpl Char.toUpper) zeroMetrics
        "disk").response = ⟨200, [("Content-Type", "text/plain")], "ok"⟩ ∧
      (webhookHandler ((testEnv (.ok ⟨200, ""⟩)).withDo
        (fun _ => .ok ⟨401, "\x7b\"result\":\"error\"\x7d"⟩))
        defaultConfig defaultTopicTpl (defaultMessageTpl Char.toUpper) zeroMetrics
        "disk").metrics.value (.sent "Disk") = 1 ∧
      (webhookHandler ((testEnv (.ok ⟨200, ""⟩)).withDo
        (fun _ => .ok ⟨401, "\x7b\"result\":\"error\"\x7d"⟩))
        defaultConfig defaultTopicTpl (defaultMessageTpl Char.toUpper) zeroMetrics
        "disk").metrics.value (.errors "request error") = 0 := by
  have hind := (reply_independent_of_chat_response (testEnv (.ok ⟨200, ""⟩)) defaultConfig
    defaultTopicTpl (defaultMessageTpl Char.toUpper) zeroMetrics "disk"
    (fun _ => .ok ⟨200, "\x7b\x7d"⟩) (fun _ => .ok ⟨401, "\x7b\"result\":\"error\"\x7d"⟩)
    (fun _ => ⟨_, rfl⟩) (fun _ => ⟨_, rfl⟩))
  have hok := hind.2 diskMessage "Disk" "[RESOLVED] Disk " _ rfl (by decide) rfl
  refine ⟨hind.1, hok.1, ?_, ?_⟩
  · rw [← hind.1, hok.2.2.1]; rfl
  · rw [← hind.1, hok.2.2.2.2 "request error"]; rfl

end AlertmanagerToZulip
